import Mathlib

/-!
Verification of the generic mapper (`src/mappers/mapper_generic.py`) of the
nansat repository: metadata key normalization, reference-grid subdataset
selection, band-descriptor construction, GCP parsing from metadata, and
geolocation-model resolution.  Python strings are embedded as `String`,
Python dictionaries as insertion-ordered association lists, Python floats as
exact decimals (`PyFloat`), and fallible Python code as `Except PyErr`.
-/

deriving instance DecidableEq for Except

/-! ## String utilities mirroring the Python string operations -/

/-- `startsWithChars p s` : does the character list `s` start with `p`. -/
def startsWithChars : List Char → List Char → Bool
  | [], _ => true
  | _ :: _, [] => false
  | p :: ps, c :: cs => p == c && startsWithChars ps cs

/-- Fueled worker for `splitOnL`; with fuel `≥ length + 1` it computes the
occurrence-based split of a character list (Python `str.split(sep)`). -/
def splitOnFuel (pat : List Char) : Nat → List Char → List Char → List (List Char)
  | _, [], acc => [acc.reverse]
  | 0, s, acc => [acc.reverse ++ s]
  | fuel+1, c :: rest, acc =>
    if startsWithChars pat (c :: rest) then
      acc.reverse :: splitOnFuel pat fuel (List.drop (pat.length - 1) rest) []
    else
      splitOnFuel pat fuel rest (c :: acc)

/-- Split a character list on every non-overlapping occurrence of `pat`
(Python `s.split(pat)` for non-empty `pat`). -/
def splitOnL (s pat : List Char) : List (List Char) := splitOnFuel pat (s.length + 1) s []

/-- Python `s.split(sep)` on strings. -/
def pySplit (s sep : String) : List String := (splitOnL s.data sep.data).map (fun l => ⟨l⟩)

/-- Python `pat in s` (substring containment): the split has more than one part. -/
def pyContains (s pat : String) : Bool := (pySplit s pat).length != 1

/-- Python `len(s)`. -/
def pyLen (s : String) : Nat := s.data.length

/-- Python whitespace characters recognized by `str.strip()`. -/
def isPySpace (c : Char) : Bool :=
  c == ' ' || c == '\t' || c == '\n' || c == '\r' || c == '\x0b' || c == '\x0c'

/-- Python `s.strip()`. -/
def pyStrip (s : String) : String :=
  ⟨((s.data.dropWhile isPySpace).reverse.dropWhile isPySpace).reverse⟩

/-- Python `s.replace(a, b)` for single-character `a`, `b`. -/
def pyReplaceChar (s : String) (a b : Char) : String :=
  ⟨s.data.map (fun c => if c == a then b else c)⟩

/-- Python `s.replace(' ', '')`: remove every space character. -/
def pyRemoveSpaces (s : String) : String := ⟨s.data.filter (fun c => c != ' ')⟩

/-- The decimal digit characters, used to render naturals. -/
def digitCharOf (d : Nat) : Char :=
  (['0', '1', '2', '3', '4', '5', '6', '7', '8', '9'].getD d '0')

/-- Fueled decimal rendering of a natural number. -/
def natDigits : Nat → Nat → List Char
  | 0, _ => []
  | f+1, n => if n < 10 then [digitCharOf n] else natDigits f (n / 10) ++ [digitCharOf (n % 10)]

/-- Decimal rendering of a natural number (Python `str(n)` / `'%d' % n`). -/
def natToStr (n : Nat) : String := ⟨natDigits (n + 1) n⟩

/-- Python `'%03d' % n`: zero-pad a natural to at least three digits. -/
def pad3 (n : Nat) : String :=
  if n < 10 then "00" ++ natToStr n
  else if n < 100 then "0" ++ natToStr n
  else natToStr n

/-! ## Exact decimal numbers standing for the Python float values involved

All numeric strings handled by the mapper are decimal literals, so the
values are embedded as exact decimals `mant * 10 ^ exp` in canonical form
(`mant` not a multiple of ten unless the value is zero), which makes
numeric equality structural and decidable. -/

/-- Canonicalization worker: strip factors of ten from the mantissa. -/
def canonDec : Nat → Int → Int → Int × Int
  | 0, m, e => (m, e)
  | f+1, m, e => if m.emod 10 = 0 then canonDec f (m.ediv 10) (e + 1) else (m, e)

/-- An exact decimal number `mant * 10 ^ exp` in canonical form. -/
structure PyFloat where
  mant : Int
  exp : Int
deriving DecidableEq

/-- Build the canonical decimal with value `m * 10 ^ e`. -/
def PyFloat.make (m e : Int) : PyFloat :=
  if m = 0 then ⟨0, 0⟩
  else
    let p := canonDec m.natAbs m e
    ⟨p.1, p.2⟩

/-- The decimal with integer value `n`. -/
def PyFloat.ofInt (n : Int) : PyFloat := PyFloat.make n 0

/-- Negation of an exact decimal (canonical form is preserved). -/
def PyFloat.neg (x : PyFloat) : PyFloat := ⟨-x.mant, x.exp⟩

/-- Numeric value of one decimal digit character. -/
def digToNat? (c : Char) : Option Nat :=
  if '0' ≤ c ∧ c ≤ '9' then some (c.toNat - 48) else none

/-- Accumulating parse of a digit run. -/
def parseDigitsAux : List Char → Nat → Option Nat
  | [], acc => some acc
  | c :: cs, acc =>
    match digToNat? c with
    | none => none
    | some d => parseDigitsAux cs (acc * 10 + d)

/-- Parse a non-empty all-digit character list as a natural number. -/
def parseDigits? : List Char → Option Nat
  | [] => none
  | c :: cs => parseDigitsAux (c :: cs) 0

/-- Parse the mantissa part of a float literal (`digits`, `digits.digits`,
`digits.`, `.digits`), returning the digit value and the fraction length. -/
def parseMantissa? (s : List Char) : Option (Nat × Nat) :=
  match splitOnL s ['.'] with
  | [ip] =>
    match parseDigits? ip with
    | none => none
    | some v => some (v, 0)
  | [ip, fp] =>
    if ip.isEmpty && fp.isEmpty then none
    else
      match (if ip.isEmpty then some 0 else parseDigits? ip),
            (if fp.isEmpty then some 0 else parseDigits? fp) with
      | some iv, some fv => some (iv * 10 ^ fp.length + fv, fp.length)
      | _, _ => none
  | _ => none

/-- Parse an optionally signed digit run as an integer (float exponents). -/
def parseSignedInt? : List Char → Option Int
  | '+' :: rest => (parseDigits? rest).map Int.ofNat
  | '-' :: rest => (parseDigits? rest).map (fun n => -(Int.ofNat n))
  | s => (parseDigits? s).map Int.ofNat

/-- Parse an unsigned float literal with optional exponent. -/
def pyFloatCore? (s : List Char) : Option PyFloat :=
  match splitOnL (s.map (fun c => if c == 'E' then 'e' else c)) ['e'] with
  | [m] => (parseMantissa? m).map (fun p => PyFloat.make (Int.ofNat p.1) (-(Int.ofNat p.2)))
  | [m, ex] =>
    match parseMantissa? m, parseSignedInt? ex with
    | some p, some ev => some (PyFloat.make (Int.ofNat p.1) (ev - Int.ofNat p.2))
    | _, _ => none
  | _ => none

/-- Python `float(s)` on the decimal literals the mapper handles. -/
def pyFloat? (s : String) : Option PyFloat :=
  match s.data with
  | '+' :: rest => pyFloatCore? rest
  | '-' :: rest => (pyFloatCore? rest).map PyFloat.neg
  | cs => pyFloatCore? cs

/-! ## Python dictionaries as insertion-ordered association lists -/

/-- A Python `dict` of strings: insertion-ordered key/value pairs. -/
abbrev Dict := List (String × String)

/-- Python `d.get(k)` / `d[k]` lookup: value of the first pair with key `k`. -/
def dictGet? (d : Dict) (k : String) : Option String :=
  (d.find? (fun p => p.1 == k)).map (fun p => p.2)

/-- Python `d.get(k, v)`: lookup with a default. -/
def dictGetD (d : Dict) (k v : String) : String := (dictGet? d k).getD v

/-- Python `k in d`. -/
def dictHas (d : Dict) (k : String) : Bool := (dictGet? d k).isSome

/-- Python `d[k] = v`: overwrite in place when the key is present,
append otherwise. -/
def dictInsert (d : Dict) (k v : String) : Dict :=
  match d with
  | [] => [(k, v)]
  | p :: rest => if p.1 == k then (k, v) :: rest else p :: dictInsert rest k v

/-- Python `d.pop(k)` (for a present key): remove the pair with key `k`. -/
def dictPop (d : Dict) (k : String) : Dict :=
  match d with
  | [] => []
  | p :: rest => if p.1 == k then rest else p :: dictPop rest k

/-! ## Errors the mapper can raise (uncaught Python exceptions), plus the
spec-side notion of a descriptive missing-reference-grid failure -/

/-- An uncaught Python exception escaping the mapper, or — for `missingGrid`
only — the descriptive missing-reference-grid failure that the spec's
§7 error-handling design calls for (the source never raises it). -/
inductive PyErr where
  | keyError (key : String)
  | indexError
  | valueError (token : String)
  | syntaxError (text : String)
  | unboundLocal (name : String)
  | missingGrid
deriving DecidableEq

/-- Does an error descriptively identify the missing-reference-grid
condition (spec §7), rather than being an incidental exception? -/
def describesMissingGrid : PyErr → Bool
  | .missingGrid => true
  | _ => false

/-! ## Data model -/

/-- Raw metadata and type of one band of a subdataset
(`subBand.GetMetadata_Dict()` and `subBand.DataType`). -/
structure BandInfo where
  metadata : Dict
  dataType : Nat
deriving DecidableEq

/-- One opened subdataset as the raster engine exposes it to the mapper:
dimensions, bands, native projection, native GCP count and native
geotransform (empty list when unset). -/
structure SubDatasetHandle where
  xsize : Nat
  ysize : Nat
  bands : List BandInfo
  projection : String
  gcpCount : Nat
  geoTransform : List PyFloat
deriving DecidableEq

/-- The `src` part of a band descriptor (`{'SourceFilename': ..., ...}`);
scale fields are present only when a non-empty alias value was found. -/
structure SrcDescriptor where
  sourceFilename : String
  sourceBand : Nat
  scaleRatio : Option String
  scaleOffset : Option String
  dataType : Nat
deriving DecidableEq

/-- One entry of `metaDict`: the `src` record and the `dst` metadata dict. -/
structure BandDescriptor where
  src : SrcDescriptor
  dst : Dict
deriving DecidableEq

/-- A ground control point as built by `gdal.GCP(x, y, z, pixel, line)`. -/
structure GCP where
  x : PyFloat
  y : PyFloat
  z : PyFloat
  pixel : PyFloat
  line : PyFloat
deriving DecidableEq

/-- The state of the output VRT dataset that the mapper mutates: projection,
GCPs set from metadata (with their projection), geotransform (empty list
when unset), the geolocation-array reference and the band descriptors. -/
structure VRTDataset where
  projection : String
  gcps : List GCP
  gcpProjection : String
  geoTransform : List PyFloat
  geolocationArray : Option (String × String)
  bands : List BandDescriptor
deriving DecidableEq

/-! ## The mapper, translated from `src/mappers/mapper_generic.py` -/

/-- `rmMetadatas` (line 29): keys stripped from every `dst` dictionary. -/
def rmMetadatas : List String :=
  ["NETCDF_VARNAME", "_FillValue", "_Unsigned", "ScaleRatio", "ScaleOffset", "dods_variable"]

/-- One step of the metadata-normalization loop (lines 16-25): try to strip
`NC_GLOBAL#GDAL_` (the part between its first two occurrences, Python
`key.split(...)[1]`), and for keys containing `NANSAT` also feed the
geo-metadata dict and drop the entry from the primary dict; an index
failure inside the `try` leaves the state of that point intact. -/
def normalizeStep (acc : Dict × Dict) (p : String × String) : Dict × Dict :=
  match (pySplit p.1 "NC_GLOBAL#GDAL_").get? 1 with
  | none => acc
  | some stripped =>
    let tmp := dictInsert acc.1 stripped p.2
    if pyContains p.1 "NANSAT" then
      match (pySplit p.1 "NC_GLOBAL#GDAL_NANSAT_").get? 1 with
      | none => (tmp, acc.2)
      | some stripped2 => (dictPop tmp stripped, dictInsert acc.2 stripped2 p.2)
    else (tmp, acc.2)

/-- Lines 16-26: produce the de-prefixed primary metadata dict (`tmp`) and
the geo-metadata dict (`geoMetadata`) from the raw `gdalMetadata`. -/
def normalizeMetadata (gdalMetadata : Dict) : Dict × Dict :=
  gdalMetadata.foldl normalizeStep ([], [])

/-- `Mapper.repare_projection` (lines 142-144): `'|' => ','`, `'&' => '"'`. -/
def repare_projection (projection : String) : String :=
  pyReplaceChar (pyReplaceChar projection '|' ',') '&' '"'

/-- Lines 72-85: build the `src` dictionary of one band, with the
scale-ratio and scale-offset alias fallback chains. -/
def buildSrc (fileName : String) (sourceBand : Nat) (bandMetadata : Dict)
    (dataType : Nat) : SrcDescriptor :=
  let scaleRatio := dictGetD bandMetadata "ScaleRatio"
    (dictGetD bandMetadata "scale" (dictGetD bandMetadata "scale_factor" ""))
  let scaleOffset := dictGetD bandMetadata "ScaleOffset"
    (dictGetD bandMetadata "offset" (dictGetD bandMetadata "add_offset" ""))
  { sourceFilename := fileName
    sourceBand := sourceBand
    scaleRatio := if pyLen scaleRatio > 0 then some scaleRatio else none
    scaleOffset := if pyLen scaleOffset > 0 then some scaleOffset else none
    dataType := dataType }

/-- Lines 87-101: build the `dst` dictionary of one band — full band
metadata, the always-set `wkv` field, the optional `name` field, then
removal of the `rmMetadatas` keys. -/
def buildDst (bandMetadata : Dict) : Dict :=
  let dst := dictInsert bandMetadata "wkv" (dictGetD bandMetadata "standard_name" "")
  let bandName := dictGetD dst "NETCDF_VARNAME" ""
  let bandName := if pyLen bandName = 0 then dictGetD dst "dods_variable" "" else bandName
  let dst := if pyLen bandName > 0 then dictInsert dst "name" bandName else dst
  rmMetadatas.foldl (fun d k => if dictHas d k then dictPop d k else d) dst

/-- Lines 64-104: the per-band loop of a data subdataset, producing one
band descriptor per band (1-based band index local to the subdataset). -/
def bandDescriptorsFor (fileName : String) (subDataset : SubDatasetHandle) :
    List BandDescriptor :=
  subDataset.bands.enum.map (fun p =>
    let bandMetadata :=
      if dictHas p.2.metadata "PixelFunctionType"
      then dictPop p.2.metadata "PixelFunctionType" else p.2.metadata
    { src := buildSrc fileName (p.1 + 1) bandMetadata p.2.dataType
      dst := buildDst bandMetadata })

/-- The accumulating state of the subdataset loop (lines 39-45):
band descriptors, classified X/Y geolocation sources, and the
reference-grid selection. -/
structure LoopState where
  metaDict : List BandDescriptor
  xDatasetSource : String
  yDatasetSource : String
  firstXSize : Nat
  firstYSize : Nat
  firstSubDataset : Option SubDatasetHandle
deriving DecidableEq

/-- The initial loop state (lines 39-44). -/
def initLoopState : LoopState :=
  { metaDict := [], xDatasetSource := "", yDatasetSource := ""
    firstXSize := 0, firstYSize := 0, firstSubDataset := none }

/-- One iteration of the subdataset loop (lines 46-104): pick the first
grid with both dimensions above one as the reference grid, then classify
same-dimension subdatasets as X source, Y source or data bands. -/
def processSubDataset (openEnv : String → SubDatasetHandle) (st : LoopState)
    (fileName : String) : LoopState :=
  let subDataset := openEnv fileName
  let st :=
    if st.firstXSize = 0 ∧ st.firstYSize = 0 ∧ subDataset.xsize > 1 ∧ subDataset.ysize > 1 then
      { st with firstXSize := subDataset.xsize, firstYSize := subDataset.ysize
                firstSubDataset := some subDataset }
    else st
  if subDataset.xsize = st.firstXSize ∧ subDataset.ysize = st.firstYSize then
    if pyContains fileName "GEOLOCATION_X_DATASET" || pyContains fileName "longitude" then
      { st with xDatasetSource := fileName }
    else if pyContains fileName "GEOLOCATION_Y_DATASET" || pyContains fileName "latitude" then
      { st with yDatasetSource := fileName }
    else
      { st with metaDict := st.metaDict ++ bandDescriptorsFor fileName subDataset }
  else st

/-- Lines 32-37: the list of locators to iterate — the subdataset list, or
the input file itself when the list is empty. -/
def getFileNames (fileName : String) (subDatasetNames : List String) : List String :=
  if subDatasetNames.length = 0 then [fileName] else subDatasetNames

/-! ## GCP parsing from metadata (`Mapper.add_gcps_from_metadata`) -/

/-- Line 148: the four GCP coordinate series base names. -/
def gcpNames : List String := ["GCPPixel", "GCPLine", "GCPX", "GCPY"]

/-- Lines 152-156: the entry count of one series — the number of
geo-metadata keys containing the base name as a substring. -/
def countGcpLines (geoMetadata : Dict) (gcpName : String) : Nat :=
  (geoMetadata.filter (fun p => pyContains p.1 gcpName)).length

/-- Python `d[k]` with an uncaught `KeyError` when the key is absent. -/
def dictGetE (d : Dict) (k : String) : Except PyErr String :=
  match dictGet? d k with
  | some v => .ok v
  | none => .error (.keyError k)

/-- Lines 157-161: concatenate the entries `NAME_000 .. NAME_(count-1)` in
index order; a missing indexed key raises `KeyError`. -/
def concatGcpLines (geoMetadata : Dict) (gcpName : String) : Nat → Except PyErr String
  | 0 => .ok ""
  | n+1 =>
    match concatGcpLines geoMetadata gcpName n with
    | .error e => .error e
    | .ok acc =>
      match dictGetE geoMetadata (gcpName ++ "_" ++ pad3 n) with
      | .error e => .error e
      | .ok v => .ok (acc ++ v)

/-- Lines 166-170: split on `|`, keep non-empty tokens, parse each as a
float; a failing token raises `ValueError`. -/
def parseGcpTokens : List String → Except PyErr (List PyFloat)
  | [] => .ok []
  | t :: ts =>
    if pyLen t > 0 then
      match pyFloat? t with
      | none => .error (.valueError t)
      | some v =>
        match parseGcpTokens ts with
        | .error e => .error e
        | .ok vs => .ok (v :: vs)
    else parseGcpTokens ts

/-- Lines 150-172 for one base name: count the entries, concatenate them,
strip and remove spaces, split on `|` and parse the tokens. -/
def seriesFor (geoMetadata : Dict) (gcpName : String) : Except PyErr (List PyFloat) :=
  match concatGcpLines geoMetadata gcpName (countGcpLines geoMetadata gcpName) with
  | .error e => .error e
  | .ok gcpString => parseGcpTokens (pySplit (pyRemoveSpaces (pyStrip gcpString)) "|")

/-- Python `xs[i]` on a list with an uncaught `IndexError` when out of range. -/
def pyIndexE (xs : List PyFloat) (i : Nat) : Except PyErr PyFloat :=
  match xs.get? i with
  | some v => .ok v
  | none => .error .indexError

/-- Line 176: `gdal.GCP(x[i], y[i], 0, pixel[i], line[i])`, with the
indexing of each series raising `IndexError` when out of range. -/
def mkGCP (pv lv xv yv : List PyFloat) (i : Nat) : Except PyErr GCP :=
  match pyIndexE xv i, pyIndexE yv i, pyIndexE pv i, pyIndexE lv i with
  | .ok xi, .ok yi, .ok pi, .ok li =>
    .ok { x := xi, y := yi, z := PyFloat.ofInt 0, pixel := pi, line := li }
  | _, _, _, _ => .error .indexError

/-- Error-propagating map used for the GCP-building loop. -/
def exceptMapGCP (f : Nat → Except PyErr GCP) : List Nat → Except PyErr (List GCP)
  | [] => .ok []
  | i :: is =>
    match f i with
    | .error e => .error e
    | .ok g =>
      match exceptMapGCP f is with
      | .error e => .error e
      | .ok gs => .ok (g :: gs)

/-- Lines 174-177: build one GCP per index of the pixel series. -/
def buildGCPs (pv lv xv yv : List PyFloat) : Except PyErr (List GCP) :=
  exceptMapGCP (mkGCP pv lv xv yv) (List.range pv.length)

/-- Lines 148-177: the GCP list that `add_gcps_from_metadata` computes
from the geo-metadata dict, or the uncaught exception doing so raises. -/
def gcpsFromMetadata (geoMetadata : Dict) : Except PyErr (List GCP) :=
  match seriesFor geoMetadata "GCPPixel" with
  | .error e => .error e
  | .ok pv =>
    match seriesFor geoMetadata "GCPLine" with
    | .error e => .error e
    | .ok lv =>
      match seriesFor geoMetadata "GCPX" with
      | .error e => .error e
      | .ok xv =>
        match seriesFor geoMetadata "GCPY" with
        | .error e => .error e
        | .ok yv => buildGCPs pv lv xv yv

/-- `Mapper.add_gcps_from_metadata` (lines 146-185): compute the GCPs and,
when at least one resulted, set them (with the repaired `GCPProjection`)
on the dataset and remove its geotransform (`self._remove_geotransform()`,
a `VRT` helper not under `src/`, modelled from the spec's §4.4: setting
GCPs invalidates any active geotransform); return the GCP count. -/
def add_gcps_from_metadata (ds : VRTDataset) (geoMetadata : Dict) :
    Except PyErr (VRTDataset × Nat) :=
  match gcpsFromMetadata geoMetadata with
  | .error e => .error e
  | .ok gcps =>
    if gcps.length > 0 then
      let projection := repare_projection (dictGetD geoMetadata "GCPProjection" "")
      .ok ({ ds with gcps := gcps, gcpProjection := projection, geoTransform := [] },
           gcps.length)
    else .ok (ds, gcps.length)

/-! ## Geolocation resolution (`Mapper.__init__`, lines 106-140) -/

/-- Modelled from the spec: `latlongSRS` (from `nansat_tools`, not under
`src/`) is the default geographic WGS84 spatial reference; its WKT export
is some fixed non-empty string, its exact text does not matter here. -/
def latlongWkt : String := "GEOGCS[\x22WGS 84\x22,DATUM[\x22WGS_1984\x22]]"

/-- Modelled from the spec: `VRT.__init__` (class `VRT` in `vrt.py`, not
under `src/`) creates the output dataset from the reference-grid
subdataset; per §4.4 step 4 the geotransform already set on the reference
grid is carried over, while projection, GCPs, geolocation array and bands
of the new dataset start empty and are filled in afterwards. -/
def vrtInit (firstSubDataset : SubDatasetHandle) : VRTDataset :=
  { projection := "", gcps := [], gcpProjection := ""
    geoTransform := firstSubDataset.geoTransform
    geolocationArray := none, bands := [] }

/-- Parse the Python `eval` of a parenthesized comma-separated numeric
tuple (line 139: `eval(geoTransformStr.replace('|', ','))`); a text that
is not such a tuple raises a `SyntaxError`. -/
def evalNumTuple (text : String) : Except PyErr (List PyFloat) :=
  let cs := (pyStrip text).data
  let inner :=
    match cs with
    | '(' :: rest => if rest.getLast? == some ')' then rest.dropLast else cs
    | _ => cs
  let toks := (splitOnL inner [',']).map (fun t => pyStrip ⟨t⟩)
  match (toks.mapM (fun t => pyFloat? t)) with
  | some vs => .ok vs
  | none => .error (.syntaxError text)

/-- Lines 106-140 once the reference grid is known: set the projection
(native, else `GCPProjection`, else WGS84, repaired), read the native GCP
count and fall back to metadata GCPs, then install the geolocation array
when both sources were classified, else fall back to the geotransform
(native, else the `GeoTransform` metadata entry, else the default literal
`'(0|1|0|0|0|0|1)'`). -/
def mapperResolveWith (firstSubDataset : SubDatasetHandle) (st : LoopState)
    (geoMetadata : Dict) : Except PyErr VRTDataset :=
  let ds := vrtInit firstSubDataset
  let ds := { ds with bands := st.metaDict }
  let projection := firstSubDataset.projection
  let projection :=
    if pyLen projection = 0 then dictGetD geoMetadata "GCPProjection" "" else projection
  let projection := if pyLen projection = 0 then latlongWkt else projection
  let ds := { ds with projection := repare_projection projection }
  let gcpStep : Except PyErr (VRTDataset × Nat) :=
    if firstSubDataset.gcpCount = 0 then add_gcps_from_metadata ds geoMetadata
    else .ok (ds, firstSubDataset.gcpCount)
  match gcpStep with
  | .error e => .error e
  | .ok (ds, gcpCount) =>
    if pyLen st.xDatasetSource > 0 ∧ pyLen st.yDatasetSource > 0 then
      .ok { ds with geolocationArray := some (st.xDatasetSource, st.yDatasetSource) }
    else if gcpCount = 0 then
      if ds.geoTransform.length = 0 then
        match evalNumTuple
            (pyReplaceChar (dictGetD geoMetadata "GeoTransform" "(0|1|0|0|0|0|1)") '|' ',') with
        | .error e => .error e
        | .ok geoTransform => .ok { ds with geoTransform := geoTransform }
      else .ok ds
    else .ok ds

/-- Lines 106-140 including the failure when no reference grid was found:
using the never-assigned local `firstSubDataset` raises an uncaught
`UnboundLocalError`. -/
def mapperResolve (st : LoopState) (geoMetadata : Dict) : Except PyErr VRTDataset :=
  match st.firstSubDataset with
  | none => .error (.unboundLocal "firstSubDataset")
  | some firstSubDataset => mapperResolveWith firstSubDataset st geoMetadata

/-- `Mapper.__init__` (lines 13-140) end to end: normalize the metadata,
iterate the subdatasets, then resolve projection and geolocation.
`openEnv` stands for `gdal.Open` on the locators involved. -/
def mapperInit (fileName : String) (openEnv : String → SubDatasetHandle)
    (subDatasetNames : List String) (gdalMetadata : Dict) : Except PyErr VRTDataset :=
  let geoMetadata := (normalizeMetadata gdalMetadata).2
  let st := (getFileNames fileName subDatasetNames).foldl (processSubDataset openEnv) initLoopState
  mapperResolve st geoMetadata

/-! ## Concrete reference inputs used by the theorems below -/

/-- The spec's reading of a raw key "matching the known prefix pattern":
the key starts with the namespace literal `NC_GLOBAL#GDAL_`. -/
def keyMatchesNamespaceAtStart (k : String) : Bool :=
  startsWithChars ("NC_GLOBAL#GDAL_").data k.data

/-- The geo-metadata mapping of the GCP round-trip example. -/
def gcpRoundTripGeo : Dict :=
  [("GCPPixel_000", "1|2"), ("GCPLine_000", "1|2"),
   ("GCPX_000", "10.0|20.0"), ("GCPY_000", "5.0|6.0")]

/-- Reference handle for a degenerate 1×1 subdataset. -/
def exTiny : SubDatasetHandle :=
  { xsize := 1, ysize := 1, bands := [], projection := "", gcpCount := 0, geoTransform := [] }

/-- Reference-grid handle carrying three native GCPs. -/
def exGridGcps : SubDatasetHandle :=
  { xsize := 2, ysize := 2, bands := [{ metadata := [], dataType := 1 }]
    projection := "P", gcpCount := 3, geoTransform := [] }

/-- An auxiliary 2×2 coordinate subdataset (no bands of its own). -/
def exAux : SubDatasetHandle :=
  { xsize := 2, ysize := 2, bands := [], projection := "", gcpCount := 0, geoTransform := [] }

/-- Opening environment of the C1 scenario: a data grid with native GCPs
plus longitude/latitude coordinate subdatasets of the same dimensions. -/
def exEnvGeoloc : String → SubDatasetHandle := fun s =>
  if s == "sub_longitude" then exAux else if s == "sub_latitude" then exAux else exGridGcps

/-- The loop state reached in the C1 scenario. -/
def exGeolocLoopState : LoopState :=
  { metaDict := [{ src := { sourceFilename := "sub_data", sourceBand := 1,
                            scaleRatio := none, scaleOffset := none, dataType := 1 }
                   dst := [("wkv", "")] }]
    xDatasetSource := "sub_longitude", yDatasetSource := "sub_latitude"
    firstXSize := 2, firstYSize := 2, firstSubDataset := some exGridGcps }

/-- A plain 2×2 reference grid: no native GCPs, no native geotransform. -/
def exGrid : SubDatasetHandle :=
  { xsize := 2, ysize := 2, bands := [{ metadata := [], dataType := 1 }]
    projection := "P", gcpCount := 0, geoTransform := [] }

/-- Loop state with a selected 2×2 reference grid, for the C10 witness. -/
def exSelState : LoopState :=
  { metaDict := [], xDatasetSource := "", yDatasetSource := ""
    firstXSize := 2, firstYSize := 2, firstSubDataset := some exAux }

/-! ## Dictionary lemmas -/

/-- Looking up the key just assigned yields the assigned value. -/
theorem dictGet_insert_self (d : Dict) (k v : String) :
    dictGet? (dictInsert d k v) k = some v := by
  have hk : (k == k) = true := beq_self_eq_true k
  induction d with
  | nil => simp [dictGet?, dictInsert, List.find?, hk]
  | cons p rest ih =>
    by_cases h : p.1 = k
    · have hb : (p.1 == k) = true := beq_iff_eq.mpr h
      simp [dictGet?, dictInsert, List.find?, hb, hk]
    · have hb : (p.1 == k) = false := beq_eq_false_iff_ne.mpr h
      simpa [dictGet?, dictInsert, List.find?, hb] using ih

/-- Assigning one key leaves lookups of other keys unchanged. -/
theorem dictGet_insert_ne (d : Dict) (k' v k : String) (h : k' ≠ k) :
    dictGet? (dictInsert d k' v) k = dictGet? d k := by
  have hkk : (k' == k) = false := beq_eq_false_iff_ne.mpr h
  induction d with
  | nil => simp [dictGet?, dictInsert, List.find?, hkk]
  | cons p rest ih =>
    by_cases hp : p.1 = k'
    · have hbp : (p.1 == k') = true := beq_iff_eq.mpr hp
      have hpk : (p.1 == k) = false := beq_eq_false_iff_ne.mpr (by rw [hp]; exact h)
      simp [dictGet?, dictInsert, List.find?, hbp, hkk, hpk]
    · have hbp : (p.1 == k') = false := beq_eq_false_iff_ne.mpr hp
      by_cases hk2 : p.1 = k
      · have hpk : (p.1 == k) = true := beq_iff_eq.mpr hk2
        simp [dictGet?, dictInsert, List.find?, hbp, hpk]
      · have hpk : (p.1 == k) = false := beq_eq_false_iff_ne.mpr hk2
        simpa [dictGet?, dictInsert, List.find?, hbp, hpk] using ih

/-- Removing one key leaves lookups of other keys unchanged. -/
theorem dictGet_pop_ne (d : Dict) (k' k : String) (h : k' ≠ k) :
    dictGet? (dictPop d k') k = dictGet? d k := by
  induction d with
  | nil => simp [dictPop]
  | cons p rest ih =>
    by_cases hp : p.1 = k'
    · have hbp : (p.1 == k') = true := beq_iff_eq.mpr hp
      have hpk : (p.1 == k) = false := beq_eq_false_iff_ne.mpr (by rw [hp]; exact h)
      simp [dictGet?, dictPop, List.find?, hbp, hpk]
    · have hbp : (p.1 == k') = false := beq_eq_false_iff_ne.mpr hp
      by_cases hk2 : p.1 = k
      · have hpk : (p.1 == k) = true := beq_iff_eq.mpr hk2
        simp [dictGet?, dictPop, List.find?, hbp, hpk]
      · have hpk : (p.1 == k) = false := beq_eq_false_iff_ne.mpr hk2
        simpa [dictGet?, dictPop, List.find?, hbp, hpk] using ih

/-- Membership after an assignment: the new pair or an old one. -/
theorem mem_dictInsert (d : Dict) (k v : String) (q : String × String)
    (hq : q ∈ dictInsert d k v) : q = (k, v) ∨ q ∈ d := by
  induction d with
  | nil =>
    simp only [dictInsert, List.mem_singleton] at hq
    exact Or.inl hq
  | cons p rest ih =>
    by_cases h : p.1 = k
    · have hb : (p.1 == k) = true := beq_iff_eq.mpr h
      simp only [dictInsert, hb, if_true] at hq
      rcases List.mem_cons.mp hq with h1 | h2
      · exact Or.inl h1
      · exact Or.inr (List.mem_cons_of_mem _ h2)
    · have hb : (p.1 == k) = false := beq_eq_false_iff_ne.mpr h
      simp only [dictInsert, hb, Bool.false_eq_true, if_false] at hq
      rcases List.mem_cons.mp hq with h1 | h2
      · exact Or.inr (h1 ▸ List.mem_cons_self _ _)
      · rcases ih h2 with h3 | h4
        · exact Or.inl h3
        · exact Or.inr (List.mem_cons_of_mem _ h4)

/-- Membership after a removal implies membership before. -/
theorem mem_dictPop (d : Dict) (k : String) (q : String × String)
    (hq : q ∈ dictPop d k) : q ∈ d := by
  induction d with
  | nil => simp [dictPop] at hq
  | cons p rest ih =>
    by_cases h : p.1 = k
    · have hb : (p.1 == k) = true := beq_iff_eq.mpr h
      simp only [dictPop, hb, if_true] at hq
      exact List.mem_cons_of_mem _ hq
    · have hb : (p.1 == k) = false := beq_eq_false_iff_ne.mpr h
      simp only [dictPop, hb, Bool.false_eq_true, if_false] at hq
      rcases List.mem_cons.mp hq with h1 | h2
      · exact h1 ▸ List.mem_cons_self _ _
      · exact List.mem_cons_of_mem _ (ih h2)

/-- The conditional-removal fold of `buildDst` leaves lookups of a key not
in the removal list unchanged. -/
theorem dictGet_rmFold_ne (ks : List String) (d : Dict) (k : String)
    (h : k ∉ ks) :
    dictGet? (ks.foldl (fun d' k' => if dictHas d' k' then dictPop d' k' else d') d) k =
      dictGet? d k := by
  induction ks generalizing d with
  | nil => rfl
  | cons k' ks ih =>
    have hk' : k' ≠ k := fun he => h (he ▸ List.mem_cons_self _ _)
    have hks : k ∉ ks := fun hm => h (List.mem_cons_of_mem _ hm)
    simp only [List.foldl_cons]
    rw [ih _ hks]
    by_cases hhas : dictHas d k'
    · rw [if_pos hhas, dictGet_pop_ne _ _ _ hk']
    · rw [if_neg hhas]

/-! ## Claim C5 -/

/-- C5 counterexample: for a band whose metadata has no `standard_name`
key, the destination descriptor does contain the semantic-quantity field
`wkv` — set to the empty placeholder string — contradicting the claim that
the field is left absent. -/
theorem wkv_set_to_empty_placeholder_cex :
    dictGet? (buildDst [("NETCDF_VARNAME", "sst")]) "wkv" = some "" ∧
    buildDst [("NETCDF_VARNAME", "sst")] = [("wkv", ""), ("name", "sst")] := by
  decide

/-- C5 amended: the destination descriptor always carries the `wkv` field;
its value is the `standard_name` metadata value when that key is present
and the empty string otherwise (line 92 sets it unconditionally). -/
theorem wkv_always_present (bandMetadata : Dict) :
    dictGet? (buildDst bandMetadata) "wkv" =
      some (dictGetD bandMetadata "standard_name" "") := by
  unfold buildDst
  rw [dictGet_rmFold_ne _ _ _ (by decide)]
  by_cases hbn :
      pyLen (if pyLen (dictGetD (dictInsert bandMetadata "wkv"
          (dictGetD bandMetadata "standard_name" "")) "NETCDF_VARNAME" "") = 0 then
        dictGetD (dictInsert bandMetadata "wkv"
          (dictGetD bandMetadata "standard_name" "")) "dods_variable" ""
      else
        dictGetD (dictInsert bandMetadata "wkv"
          (dictGetD bandMetadata "standard_name" "")) "NETCDF_VARNAME" "") > 0
  · rw [if_pos hbn, dictGet_insert_ne _ _ _ _ (by decide), dictGet_insert_self]
  · rw [if_neg hbn, dictGet_insert_self]

/-! ## Claim C8 -/

/-- Replacing a character that does not occur in the string is the identity. -/
theorem pyReplaceChar_id (s : String) (a b : Char) (h : ∀ c ∈ s.data, c ≠ a) :
    pyReplaceChar s a b = s := by
  have h2 : s.data.map (fun c => if c == a then b else c) = s.data := by
    conv_rhs => rw [← List.map_id s.data]
    exact List.map_congr_left (fun c hc => by
      have hb : (c == a) = false := beq_eq_false_iff_ne.mpr (h c hc)
      simp [hb])
  cases s with
  | mk d => exact congrArg (fun l => String.mk l) h2

/-- C8: projection repair replaces every `|` by `,` and every `&` by `"`
and touches nothing else: `repare("A|B&C") = 'A,B"C'`, and a string
containing neither `|` nor `&` is returned unchanged. -/
theorem repare_projection_pure :
    repare_projection "A|B&C" = "A,B\x22C" ∧
    ∀ s : String, (∀ c ∈ s.data, c ≠ '|' ∧ c ≠ '&') → repare_projection s = s := by
  constructor
  · decide
  · intro s h
    unfold repare_projection
    rw [pyReplaceChar_id s _ _ (fun c hc => (h c hc).1)]
    exact pyReplaceChar_id s _ _ (fun c hc => (h c hc).2)

/-- C8 witness: the no-sentinel part of `repare_projection_pure` applied to
a concrete projection string. -/
theorem repare_projection_pure_witness :
    repare_projection "GEOGCS[WGS 84]" = "GEOGCS[WGS 84]" :=
  repare_projection_pure.2 "GEOGCS[WGS 84]" (by decide)

/-! ## Claim C7 -/

/-- C7: on `GCPPixel_000="1|2"`, `GCPLine_000="1|2"`, `GCPX_000="10.0|20.0"`,
`GCPY_000="5.0|6.0"`, GCP parsing produces exactly the two GCPs
`(pixel=1, line=1, x=10.0, y=5.0, z=0)` and `(pixel=2, line=2, x=20.0,
y=6.0, z=0)`, in that order. -/
theorem gcp_round_trip :
    gcpsFromMetadata gcpRoundTripGeo =
      .ok [{ x := .ofInt 10, y := .ofInt 5, z := .ofInt 0,
             pixel := .ofInt 1, line := .ofInt 1 },
           { x := .ofInt 20, y := .ofInt 6, z := .ofInt 0,
             pixel := .ofInt 2, line := .ofInt 2 }] := by
  decide

/-! ## Claim C9 -/

/-- C9: with `GCPX_001` present but no `GCPX_000`, the per-series entry
count (substring-containment count) is 1, so exactly the key `GCPX_000`
is looked up and GCP construction fails with an uncaught key-lookup error
instead of returning zero GCPs. -/
theorem gcp_noncontiguous_key_error :
    countGcpLines [("GCPX_001", "10.0")] "GCPX" = 1 ∧
    gcpsFromMetadata [("GCPX_001", "10.0")] = .error (.keyError "GCPX_000") := by
  decide

/-! ## Claim C6 -/

/-- C6 counterexample: the raw key `xNC_GLOBAL#GDAL_foo` does not match the
prefix pattern (the namespace literal is not at the start), yet its
stripped key `foo` does appear in the normalized primary mapping, because
the code splits on any occurrence of the literal. -/
theorem normalized_key_from_nonmatching_key_cex :
    (normalizeMetadata [("xNC_GLOBAL#GDAL_foo", "v")]).1 = [("foo", "v")] ∧
    keyMatchesNamespaceAtStart "xNC_GLOBAL#GDAL_foo" = false := by
  decide

/-- One normalization step only adds primary keys derived by the
`NC_GLOBAL#GDAL_` split of the raw key being processed. -/
theorem normalizeStep_key_prov (C : String → Prop) (acc : Dict × Dict)
    (p : String × String) (hacc : ∀ q ∈ acc.1, C q.1)
    (hp : ∀ k, (pySplit p.1 "NC_GLOBAL#GDAL_").get? 1 = some k → C k) :
    ∀ q ∈ (normalizeStep acc p).1, C q.1 := by
  intro q hq
  unfold normalizeStep at hq
  cases hsp : (pySplit p.1 "NC_GLOBAL#GDAL_").get? 1 with
  | none => rw [hsp] at hq; exact hacc q hq
  | some stripped =>
    rw [hsp] at hq
    have hins : ∀ q' ∈ dictInsert acc.1 stripped p.2, C q'.1 := by
      intro q' hq'
      rcases mem_dictInsert _ _ _ _ hq' with h1 | h2
      · rw [h1]; exact hp stripped hsp
      · exact hacc q' h2
    cases hnan : pyContains p.1 "NANSAT" with
    | false => rw [hnan] at hq; simp only [Bool.false_eq_true, if_false] at hq; exact hins q hq
    | true =>
      rw [hnan] at hq; simp only [if_true] at hq
      cases hsp2 : (pySplit p.1 "NC_GLOBAL#GDAL_NANSAT_").get? 1 with
      | none => rw [hsp2] at hq; exact hins q hq
      | some s2 => rw [hsp2] at hq; exact hins q (mem_dictPop _ _ _ hq)

/-- Folding the normalization over a raw list only produces primary keys
derived by the `NC_GLOBAL#GDAL_` split of some processed raw key. -/
theorem normalizeFold_key_prov (C : String → Prop) (l : Dict) :
    ∀ (acc : Dict × Dict), (∀ q ∈ acc.1, C q.1) →
    (∀ p ∈ l, ∀ k, (pySplit p.1 "NC_GLOBAL#GDAL_").get? 1 = some k → C k) →
    ∀ q ∈ (l.foldl normalizeStep acc).1, C q.1 := by
  induction l with
  | nil => intro acc hacc _ q hq; exact hacc q hq
  | cons p rest ih =>
    intro acc hacc hl q hq
    simp only [List.foldl_cons] at hq
    exact ih (normalizeStep acc p)
      (normalizeStep_key_prov C acc p hacc (hl p (List.mem_cons_self _ _)))
      (fun p' hp' => hl p' (List.mem_cons_of_mem _ hp')) q hq

/-- C6 amended: every key of the normalized primary mapping is derived from
an input key that contains the namespace literal `NC_GLOBAL#GDAL_`
somewhere (the normalized key being the segment between its first two
occurrences); raw keys without the literal never contribute a key.  The
original "prefix pattern" reading fails: an occurrence anywhere in the raw
key suffices, not only at its start. -/
theorem normalize_no_leak (raw : Dict) (q : String × String)
    (hq : q ∈ (normalizeMetadata raw).1) :
    ∃ p ∈ raw, pyContains p.1 "NC_GLOBAL#GDAL_" = true ∧
      (pySplit p.1 "NC_GLOBAL#GDAL_").get? 1 = some q.1 := by
  refine normalizeFold_key_prov
    (fun k => ∃ p ∈ raw, pyContains p.1 "NC_GLOBAL#GDAL_" = true ∧
      (pySplit p.1 "NC_GLOBAL#GDAL_").get? 1 = some k) raw ([], []) ?_ ?_ q hq
  · intro q' hq'; exact absurd hq' (List.not_mem_nil _)
  · intro p hp k hk
    have hlen : 1 < (pySplit p.1 "NC_GLOBAL#GDAL_").length := by
      by_contra hle
      push_neg at hle
      rw [List.get?_eq_none.mpr hle] at hk
      exact Option.noConfusion hk
    refine ⟨p, hp, ?_, hk⟩
    have : (pySplit p.1 "NC_GLOBAL#GDAL_").length ≠ 1 := by omega
    simpa [pyContains] using this

/-- C6 witness: `normalize_no_leak` applied at a one-entry raw mapping. -/
theorem normalize_no_leak_witness :
    ∃ p ∈ ([("NC_GLOBAL#GDAL_A", "v")] : Dict),
      pyContains p.1 "NC_GLOBAL#GDAL_" = true ∧
      (pySplit p.1 "NC_GLOBAL#GDAL_").get? 1 = some "A" :=
  normalize_no_leak [("NC_GLOBAL#GDAL_A", "v")] ("A", "v") (by decide)

/-! ## Claim C10 -/

/-- When the reference-grid selection cannot fire, the selection fields of
the loop state are untouched by a step. -/
theorem processSubDataset_first_unchanged (openEnv : String → SubDatasetHandle)
    (st : LoopState) (fn : String)
    (h : ¬(st.firstXSize = 0 ∧ st.firstYSize = 0 ∧
           (openEnv fn).xsize > 1 ∧ (openEnv fn).ysize > 1)) :
    (processSubDataset openEnv st fn).firstSubDataset = st.firstSubDataset ∧
    (processSubDataset openEnv st fn).firstXSize = st.firstXSize ∧
    (processSubDataset openEnv st fn).firstYSize = st.firstYSize := by
  simp only [processSubDataset]
  rw [if_neg h]
  split
  · split
    · simp
    · split
      · simp
      · simp
  · simp

/-- A dimension-matching locator matching the X-geolocation naming pattern
only overwrites the X source (regardless of any Y-pattern match, and with
no band descriptors added). -/
theorem processSubDataset_xmatch (openEnv : String → SubDatasetHandle)
    (st : LoopState) (fn : String) (hsel : st.firstXSize ≠ 0)
    (hx : (openEnv fn).xsize = st.firstXSize) (hy : (openEnv fn).ysize = st.firstYSize)
    (hmx : (pyContains fn "GEOLOCATION_X_DATASET" || pyContains fn "longitude") = true) :
    processSubDataset openEnv st fn = { st with xDatasetSource := fn } := by
  have hcond : ¬(st.firstXSize = 0 ∧ st.firstYSize = 0 ∧
      (openEnv fn).xsize > 1 ∧ (openEnv fn).ysize > 1) := fun hc => hsel hc.1
  simp only [processSubDataset]
  rw [if_neg hcond, if_pos ⟨hx, hy⟩, hmx]
  simp

/-- A dimension-matching locator matching only the Y-geolocation naming
pattern overwrites the Y source (no band descriptors added). -/
theorem processSubDataset_ymatch (openEnv : String → SubDatasetHandle)
    (st : LoopState) (fn : String) (hsel : st.firstXSize ≠ 0)
    (hx : (openEnv fn).xsize = st.firstXSize) (hy : (openEnv fn).ysize = st.firstYSize)
    (hmx : (pyContains fn "GEOLOCATION_X_DATASET" || pyContains fn "longitude") = false)
    (hmy : (pyContains fn "GEOLOCATION_Y_DATASET" || pyContains fn "latitude") = true) :
    processSubDataset openEnv st fn = { st with yDatasetSource := fn } := by
  have hcond : ¬(st.firstXSize = 0 ∧ st.firstYSize = 0 ∧
      (openEnv fn).xsize > 1 ∧ (openEnv fn).ysize > 1) := fun hc => hsel hc.1
  simp only [processSubDataset]
  rw [if_neg hcond, if_pos ⟨hx, hy⟩, hmx, hmy]
  simp

/-- Folding over a run of dimension-matching X-pattern locators leaves the
last one as the recorded X source. -/
theorem foldl_xmatch_last (openEnv : String → SubDatasetHandle) (st : LoopState)
    (hsel : st.firstXSize ≠ 0) :
    ∀ (l : List String) (g0 : String),
      (∀ g ∈ l, (openEnv g).xsize = st.firstXSize ∧ (openEnv g).ysize = st.firstYSize ∧
        (pyContains g "GEOLOCATION_X_DATASET" || pyContains g "longitude") = true) →
      (l.foldl (processSubDataset openEnv) { st with xDatasetSource := g0 }).xDatasetSource =
        (g0 :: l).getLast (List.cons_ne_nil _ _) := by
  intro l
  induction l with
  | nil => intro g0 _; simp
  | cons g rest ih =>
    intro g0 hl
    have hg := hl g (List.mem_cons_self _ _)
    have hstep : processSubDataset openEnv { st with xDatasetSource := g0 } g =
        { st with xDatasetSource := g } := by
      have h := processSubDataset_xmatch openEnv { st with xDatasetSource := g0 } g
        (by simpa using hsel) (by simpa using hg.1) (by simpa using hg.2.1) hg.2.2
      simpa using h
    simp only [List.foldl_cons, hstep]
    rw [ih g (fun g' hg' => hl g' (List.mem_cons_of_mem _ hg'))]
    exact (List.getLast_cons (List.cons_ne_nil _ _)).symm

/-- C10: once a reference grid is selected, (i) later subdatasets never
change the selection (first-match), (ii) a dimension-matching X-pattern
locator overwrites the X source and only it — so the last match in input
order wins — is excluded from band construction, and is classified as X
even if it also matches the Y pattern, and (iii) a locator matching only
the Y pattern likewise overwrites the Y source, and (iv) over a run of
X-pattern locators the recorded X source is the last of the run. -/
theorem last_match_wins_classification (openEnv : String → SubDatasetHandle)
    (st : LoopState) (fn : String) (hsel : st.firstXSize ≠ 0) :
    ((processSubDataset openEnv st fn).firstSubDataset = st.firstSubDataset ∧
     (processSubDataset openEnv st fn).firstXSize = st.firstXSize ∧
     (processSubDataset openEnv st fn).firstYSize = st.firstYSize) ∧
    ((openEnv fn).xsize = st.firstXSize → (openEnv fn).ysize = st.firstYSize →
      (pyContains fn "GEOLOCATION_X_DATASET" || pyContains fn "longitude") = true →
      processSubDataset openEnv st fn = { st with xDatasetSource := fn }) ∧
    ((openEnv fn).xsize = st.firstXSize → (openEnv fn).ysize = st.firstYSize →
      (pyContains fn "GEOLOCATION_X_DATASET" || pyContains fn "longitude") = false →
      (pyContains fn "GEOLOCATION_Y_DATASET" || pyContains fn "latitude") = true →
      processSubDataset openEnv st fn = { st with yDatasetSource := fn }) ∧
    (∀ (l : List String) (g0 : String),
      (∀ g ∈ l, (openEnv g).xsize = st.firstXSize ∧ (openEnv g).ysize = st.firstYSize ∧
        (pyContains g "GEOLOCATION_X_DATASET" || pyContains g "longitude") = true) →
      (l.foldl (processSubDataset openEnv) { st with xDatasetSource := g0 }).xDatasetSource =
        (g0 :: l).getLast (List.cons_ne_nil _ _)) :=
  ⟨processSubDataset_first_unchanged openEnv st fn (fun hc => hsel hc.1),
   fun hx hy hmx => processSubDataset_xmatch openEnv st fn hsel hx hy hmx,
   fun hx hy hmx hmy => processSubDataset_ymatch openEnv st fn hsel hx hy hmx hmy,
   fun l g0 hl => foldl_xmatch_last openEnv st hsel l g0 hl⟩

/-! ## Claim C4 -/

/-- If no processed subdataset has both dimensions above one, the
reference-grid selection stays empty through the whole loop. -/
theorem foldl_no_grid (openEnv : String → SubDatasetHandle) :
    ∀ (l : List String) (st : LoopState),
      st.firstXSize = 0 → st.firstYSize = 0 → st.firstSubDataset = none →
      (∀ fn ∈ l, ¬((openEnv fn).xsize > 1 ∧ (openEnv fn).ysize > 1)) →
      (l.foldl (processSubDataset openEnv) st).firstSubDataset = none := by
  intro l
  induction l with
  | nil => intro st _ _ h3 _; exact h3
  | cons fn rest ih =>
    intro st h1 h2 h3 hl
    have hna : ¬(st.firstXSize = 0 ∧ st.firstYSize = 0 ∧
        (openEnv fn).xsize > 1 ∧ (openEnv fn).ysize > 1) :=
      fun hc => hl fn (List.mem_cons_self _ _) ⟨hc.2.2.1, hc.2.2.2⟩
    obtain ⟨u1, u2, u3⟩ := processSubDataset_first_unchanged openEnv st fn hna
    simp only [List.foldl_cons]
    exact ih (processSubDataset openEnv st fn) (u2.trans h1) (u3.trans h2) (u1.trans h3)
      (fun g hg => hl g (List.mem_cons_of_mem _ hg))

/-- C4 counterexample: with only 1×1 subdatasets, construction fails — but
with the incidental unbound-local error on the internal name
`firstSubDataset`, which does not describe the missing-grid condition. -/
theorem no_grid_error_not_descriptive_cex :
    mapperInit "f" (fun _ => exTiny) ["a", "b"] [] =
      .error (.unboundLocal "firstSubDataset") ∧
    describesMissingGrid (.unboundLocal "firstSubDataset") = false := by
  decide

/-- C4 amended: when no subdataset has both dimensions above one, raster
construction fails as a whole — no dataset value is produced — but via an
uncaught unbound-local error on the internal name `firstSubDataset`, not
via a descriptive error identifying the missing-grid condition. -/
theorem no_grid_unbound_local (fileName : String) (openEnv : String → SubDatasetHandle)
    (subDatasetNames : List String) (gdalMetadata : Dict)
    (h : ∀ fn ∈ getFileNames fileName subDatasetNames,
      ¬((openEnv fn).xsize > 1 ∧ (openEnv fn).ysize > 1)) :
    mapperInit fileName openEnv subDatasetNames gdalMetadata =
      .error (.unboundLocal "firstSubDataset") ∧
    describesMissingGrid (.unboundLocal "firstSubDataset") = false := by
  constructor
  · have h1 := foldl_no_grid openEnv (getFileNames fileName subDatasetNames)
      initLoopState rfl rfl rfl h
    simp only [mapperInit, mapperResolve]
    rw [h1]
  · rfl

/-- C4 witness: `no_grid_unbound_local` applied to a two-subdataset input
whose grids are all 1×1. -/
theorem no_grid_unbound_local_witness :
    mapperInit "g" (fun _ => exTiny) ["s1", "s2"] [("k", "v")] =
      .error (.unboundLocal "firstSubDataset") ∧
    describesMissingGrid (.unboundLocal "firstSubDataset") = false :=
  no_grid_unbound_local "g" (fun _ => exTiny) ["s1", "s2"] [("k", "v")] (by decide)

/-! ## Claim C1 -/

/-- C1 counterexample: the reference grid carries native GCP count 3 and
both an X and a Y geolocation source are classified, yet the resolver DOES
install the geolocation-array reference (the install is not gated on the
GCP count), so the native GCPs are not the single active spatial model. -/
theorem geoloc_array_despite_native_gcps_cex :
    (exEnvGeoloc "sub_data").gcpCount = 3 ∧
    (mapperInit "f" exEnvGeoloc ["sub_data", "sub_longitude", "sub_latitude"] []).map
      (fun ds => ds.geolocationArray) = .ok (some ("sub_longitude", "sub_latitude")) := by
  decide

/-- C1 amended: the geolocation-array install is not gated on the native
GCP count: whenever the loop classified both an X and a Y geolocation
source and the reference grid carries native GCPs (so metadata GCP parsing
is skipped and cannot fail), resolution succeeds and installs the
geolocation-array reference; the native GCPs stay attached to the grid but
are not the sole active model. -/
theorem geoloc_array_not_gated_on_gcps (fileName : String)
    (openEnv : String → SubDatasetHandle) (subDatasetNames : List String)
    (gdalMetadata : Dict) (st : LoopState) (fs : SubDatasetHandle)
    (hst : (getFileNames fileName subDatasetNames).foldl (processSubDataset openEnv)
        initLoopState = st)
    (hfs : st.firstSubDataset = some fs) (hgcp : fs.gcpCount ≠ 0)
    (hx : pyLen st.xDatasetSource > 0) (hy : pyLen st.yDatasetSource > 0) :
    ∃ ds, mapperInit fileName openEnv subDatasetNames gdalMetadata = .ok ds ∧
      ds.geolocationArray = some (st.xDatasetSource, st.yDatasetSource) := by
  simp only [mapperInit, mapperResolve]
  rw [hst, hfs]
  simp only [mapperResolveWith, hgcp, hx, hy, if_false, if_true]
  exact ⟨_, rfl, rfl⟩

/-- C1 witness: `geoloc_array_not_gated_on_gcps` applied to the concrete
scenario with native GCP count 3 and classified X/Y sources. -/
theorem geoloc_array_not_gated_on_gcps_witness :
    ∃ ds, mapperInit "f" exEnvGeoloc ["sub_data", "sub_longitude", "sub_latitude"] [] =
        .ok ds ∧
      ds.geolocationArray =
        some (exGeolocLoopState.xDatasetSource, exGeolocLoopState.yDatasetSource) :=
  geoloc_array_not_gated_on_gcps "f" exEnvGeoloc ["sub_data", "sub_longitude", "sub_latitude"]
    [] exGeolocLoopState exGridGcps (by decide) (by decide) (by decide) (by decide) (by decide)

/-! ## Claim C3 -/

/-- Building one GCP succeeds when the index is in range of all four series. -/
theorem mkGCP_ok (pv lv xv yv : List PyFloat) (i : Nat)
    (hp : i < pv.length) (hl : i < lv.length) (hx : i < xv.length) (hy : i < yv.length) :
    ∃ g, mkGCP pv lv xv yv i = .ok g := by
  unfold mkGCP pyIndexE
  rw [List.get?_eq_get hx, List.get?_eq_get hy, List.get?_eq_get hp, List.get?_eq_get hl]
  exact ⟨_, rfl⟩

/-- Building one GCP raises `IndexError` when the index is out of range of
the line, X or Y series. -/
theorem mkGCP_err (pv lv xv yv : List PyFloat) (i : Nat)
    (h : lv.length ≤ i ∨ xv.length ≤ i ∨ yv.length ≤ i) :
    mkGCP pv lv xv yv i = .error .indexError := by
  rcases h with h | h | h
  · have hn : lv.get? i = none := List.get?_eq_none.mpr h
    cases hxo : xv.get? i <;> cases hyo : yv.get? i <;> cases hpo : pv.get? i <;>
      simp only [mkGCP, pyIndexE, hxo, hyo, hpo, hn]
  · have hn : xv.get? i = none := List.get?_eq_none.mpr h
    cases hlo : lv.get? i <;> cases hyo : yv.get? i <;> cases hpo : pv.get? i <;>
      simp only [mkGCP, pyIndexE, hlo, hyo, hpo, hn]
  · have hn : yv.get? i = none := List.get?_eq_none.mpr h
    cases hxo : xv.get? i <;> cases hlo : lv.get? i <;> cases hpo : pv.get? i <;>
      simp only [mkGCP, pyIndexE, hxo, hlo, hpo, hn]

/-- The GCP-building loop succeeds with one GCP per index when every index
succeeds. -/
theorem exceptMapGCP_ok (f : Nat → Except PyErr GCP) :
    ∀ (is : List Nat), (∀ i ∈ is, ∃ g, f i = .ok g) →
      ∃ gs, exceptMapGCP f is = .ok gs ∧ gs.length = is.length := by
  intro is
  induction is with
  | nil => intro _; exact ⟨[], rfl, rfl⟩
  | cons i rest ih =>
    intro h
    obtain ⟨g, hg⟩ := h i (List.mem_cons_self _ _)
    obtain ⟨gs, hgs, hlen⟩ := ih (fun j hj => h j (List.mem_cons_of_mem _ hj))
    exact ⟨g :: gs, by simp [exceptMapGCP, hg, hgs], by simp [hlen]⟩

/-- The GCP-building loop raises `IndexError` when some index raises it and
every index either succeeds or raises it. -/
theorem exceptMapGCP_err (f : Nat → Except PyErr GCP) :
    ∀ (is : List Nat),
      (∀ i ∈ is, f i = .error .indexError ∨ ∃ g, f i = .ok g) →
      (∃ i ∈ is, f i = .error .indexError) →
      exceptMapGCP f is = .error .indexError := by
  intro is
  induction is with
  | nil =>
    intro _ h
    rcases h with ⟨i, hi, _⟩
    exact absurd hi (List.not_mem_nil _)
  | cons i rest ih =>
    intro hall hex
    rcases hall i (List.mem_cons_self _ _) with hi | ⟨g, hg⟩
    · simp [exceptMapGCP, hi]
    · have hex2 : ∃ j ∈ rest, f j = .error .indexError := by
        rcases hex with ⟨j, hj, hfj⟩
        rcases List.mem_cons.mp hj with h1 | h2
        · subst h1; rw [hg] at hfj; exact absurd hfj (by simp)
        · exact ⟨j, h2, hfj⟩
      have hrec := ih (fun j hj => hall j (List.mem_cons_of_mem _ hj)) hex2
      simp [exceptMapGCP, hg, hrec]

/-- C3 counterexample: a series-length mismatch where the pixel series is
longer (2 pixel values against 1 line value) raises an uncaught
`IndexError`, and a non-numeric token raises an uncaught `ValueError`;
neither case recovers with zero GCPs. -/
theorem gcp_mismatch_not_zero_cex :
    gcpsFromMetadata
      [("GCPPixel_000", "1|2"), ("GCPLine_000", "3"),
       ("GCPX_000", "4|5"), ("GCPY_000", "6|7")] = .error .indexError ∧
    gcpsFromMetadata [("GCPPixel_000", "x1|2")] = .error (.valueError "x1") := by
  decide

/-- C3 amended: GCP construction from metadata does not recover from
inconsistent series: when the four series parse and the pixel series is at
most as long as each other series, it returns one GCP per pixel entry
(silently truncating longer series, zero only when the pixel series is
empty); when the pixel series is longer than some other series, it raises
an uncaught `IndexError` (and a failing token already raises `ValueError`
during series parsing, as the counterexample shows). -/
theorem gcp_series_mismatch_raises (geo : Dict) (pv lv xv yv : List PyFloat)
    (hpv : seriesFor geo "GCPPixel" = .ok pv) (hlv : seriesFor geo "GCPLine" = .ok lv)
    (hxv : seriesFor geo "GCPX" = .ok xv) (hyv : seriesFor geo "GCPY" = .ok yv) :
    ((pv.length ≤ lv.length ∧ pv.length ≤ xv.length ∧ pv.length ≤ yv.length) →
      ∃ gs, gcpsFromMetadata geo = .ok gs ∧ gs.length = pv.length) ∧
    (¬(pv.length ≤ lv.length ∧ pv.length ≤ xv.length ∧ pv.length ≤ yv.length) →
      gcpsFromMetadata geo = .error .indexError) := by
  have hred : gcpsFromMetadata geo = buildGCPs pv lv xv yv := by
    simp only [gcpsFromMetadata, hpv, hlv, hxv, hyv]
  constructor
  · rintro ⟨h1, h2, h3⟩
    obtain ⟨gs, hgs, hlen⟩ := exceptMapGCP_ok (mkGCP pv lv xv yv) (List.range pv.length)
      (fun i hi => mkGCP_ok pv lv xv yv i (List.mem_range.mp hi)
        (lt_of_lt_of_le (List.mem_range.mp hi) h1)
        (lt_of_lt_of_le (List.mem_range.mp hi) h2)
        (lt_of_lt_of_le (List.mem_range.mp hi) h3))
    refine ⟨gs, ?_, ?_⟩
    · rw [hred]; exact hgs
    · simpa using hlen
  · intro hneg
    rw [hred]
    apply exceptMapGCP_err (mkGCP pv lv xv yv) (List.range pv.length)
    · intro i hi
      by_cases hb : i < lv.length ∧ i < xv.length ∧ i < yv.length
      · exact Or.inr (mkGCP_ok pv lv xv yv i (List.mem_range.mp hi) hb.1 hb.2.1 hb.2.2)
      · have hle : lv.length ≤ i ∨ xv.length ≤ i ∨ yv.length ≤ i := by omega
        exact Or.inl (mkGCP_err pv lv xv yv i hle)
    · have hex : ∃ i, i < pv.length ∧
          (lv.length ≤ i ∨ xv.length ≤ i ∨ yv.length ≤ i) := by
        refine ⟨min lv.length (min xv.length yv.length), ?_, ?_⟩ <;> omega
      rcases hex with ⟨i, hi1, hi2⟩
      exact ⟨i, List.mem_range.mpr hi1, mkGCP_err pv lv xv yv i hi2⟩

/-- C3 witness: `gcp_series_mismatch_raises` applied to consistent
one-entry series, yielding exactly one GCP. -/
theorem gcp_series_mismatch_raises_witness :
    ∃ gs, gcpsFromMetadata [("GCPPixel_000", "1"), ("GCPLine_000", "2"),
      ("GCPX_000", "3"), ("GCPY_000", "4")] = .ok gs ∧ gs.length = [PyFloat.ofInt 1].length :=
  (gcp_series_mismatch_raises
      [("GCPPixel_000", "1"), ("GCPLine_000", "2"), ("GCPX_000", "3"), ("GCPY_000", "4")]
      [PyFloat.ofInt 1] [PyFloat.ofInt 2] [PyFloat.ofInt 3] [PyFloat.ofInt 4]
      (by decide) (by decide) (by decide) (by decide)).1 (by decide)

/-! ## Claim C2 -/

/-- C2: with no GCPs anywhere, no geolocation pair, no geotransform on the
reference grid and no `GeoTransform` metadata entry, the code installs the
SEVEN-coefficient tuple `(0,1,0,0,0,0,1)` evaluated from the default
literal `'(0|1|0|0|0|0|1)'` of line 138 — not the six-coefficient identity
`(0,1,0,0,0,1)` that the claim (and the geotransform format itself, §3 of
the spec) requires: the literal carries a doubled zero. -/
theorem default_geotransform_seven_coefficients :
    (mapperInit "f" (fun _ => exGrid) ["only"] []).map (fun ds => ds.geoTransform) =
      .ok ([0, 1, 0, 0, 0, 0, 1].map PyFloat.ofInt) ∧
    ([0, 1, 0, 0, 0, 0, 1].map PyFloat.ofInt).length ≠ 6 := by
  decide

/-- C10 witness: the X-classification part of
`last_match_wins_classification` applied to a concrete selected state and
a longitude-named locator of matching dimensions. -/
theorem last_match_wins_classification_witness :
    processSubDataset (fun _ => exAux) exSelState "a_longitude" =
      { exSelState with xDatasetSource := "a_longitude" } :=
  ((last_match_wins_classification (fun _ => exAux) exSelState "a_longitude"
      (by decide)).2.1) (by decide) (by decide) (by decide)
